import Mathlib

/-!
Verification of the discharge orchestration, decision and escalation engine.

The definitions below are a shallow embedding of the Python sources:
`coordinator/coordinator_agent.py`, `coordinator/escalation_manager.py` and
`coordinator/state_manager.py`.  Python dicts whose keys may be absent are
embedded with `Option` fields; `dict.get(k, default)` becomes `Option.getD`;
Python dict iteration order (insertion order) is embedded as association
lists; machine timestamps are embedded as `Nat` seconds, with the ISO
rendering/parsing collaborators (`datetime.isoformat` /
`datetime.fromisoformat`) passed in as function parameters.
-/

namespace DischargeFlow

/-! ### Python string primitives used by the engine (ASCII semantics,
which is all the engine ever feeds them) -/

/-- `str.lower` on an ASCII character. -/
def pyLowerChar (c : Char) : Char :=
  if 'A' ≤ c ∧ c ≤ 'Z' then Char.ofNat (c.toNat + 32) else c

/-- `str.upper` on an ASCII character. -/
def pyUpperChar (c : Char) : Char :=
  if 'a' ≤ c ∧ c ≤ 'z' then Char.ofNat (c.toNat - 32) else c

/-- `str.lower`. -/
def pyLower (s : String) : String := ⟨s.data.map pyLowerChar⟩

/-- `str.upper`. -/
def pyUpper (s : String) : String := ⟨s.data.map pyUpperChar⟩

/-- `s[:n]`. -/
def pyTake (n : Nat) (s : String) : String := ⟨s.data.take n⟩

/-- `str.startswith`. -/
def pyStartsWith (s pre : String) : Bool := pre.data.isPrefixOf s.data

/-- Fuel-driven worker for `str.replace`: replaces non-overlapping
occurrences left to right.  The fuel (the length of the scanned list)
bounds the recursion; every call consumes at least one scanned character. -/
def replaceAllFuel : Nat → List Char → List Char → List Char → List Char
  | 0, _, _, s => s
  | _ + 1, _, _, [] => []
  | fuel + 1, pat, rep, c :: rest =>
    if pat.isPrefixOf (c :: rest) && !pat.isEmpty then
      rep ++ replaceAllFuel fuel pat rep ((c :: rest).drop pat.length)
    else
      c :: replaceAllFuel fuel pat rep rest

/-- `str.replace(pat, rep)` (the engine only calls it with non-empty `pat`). -/
def pyReplace (s pat rep : String) : String :=
  ⟨replaceAllFuel s.data.length pat.data rep.data s.data⟩

/-- Decimal digit character, as Python's `format` renders one digit. -/
def decDigitChar (d : Nat) : Char := Char.ofNat (48 + d)

/-- The decimal digits of `n`, least significant first; structural on fuel
(`n` itself suffices, every step divides by 10). -/
def natToDigitsAux : Nat → Nat → List Char
  | 0, _ => []
  | _ + 1, 0 => []
  | fuel + 1, n + 1 => decDigitChar ((n + 1) % 10) :: natToDigitsAux fuel ((n + 1) / 10)

/-- The decimal rendering of `n` as characters, most significant first. -/
def natRepr (n : Nat) : List Char :=
  if n = 0 then ['0'] else (natToDigitsAux n n).reverse

/-- Python `f"{n:03d}"` for a non-negative `n`: the decimal rendering
left-padded with `'0'` to width at least 3. -/
def pyFormat03 (n : Nat) : String :=
  ⟨List.replicate (3 - (natRepr n).length) '0' ++ natRepr n⟩

/-- `os.path.join` as the engine uses it (POSIX separator). -/
def pyJoin (a b : String) : String := a ++ "/" ++ b

/-- The opaque serialisation of Python's empty dict `{}`: the engine forwards
`data` payloads without interpreting them, so they are embedded as opaque
strings. -/
def emptyDict : String := "\x7b\x7d"

/-! ### Data model (`schemas/agent_schema.py`, records as the engine reads them) -/

/-- An issue dict as an agent emits it.  Every field is read with `dict.get`,
so each is `Option`-valued; `evidence` defaults to `[]` and `data` to `{}`
at the use sites. -/
structure Issue where
  code : Option String
  title : Option String
  severity : Option String
  message : Option String
  suggested_action : Option String
  evidence : List String
  data : Option String
deriving Repr, DecidableEq

/-- An issue after `coordinate` stamped it with its source agent
(`issue_with_agent["agent"] = agent_name`). -/
structure TaggedIssue where
  agent : String
  issue : Issue
deriving Repr, DecidableEq

/-- One agent's output as the coordinator reads it: `output.get("noc")`
truthiness and `output.get("issues", [])`. -/
structure AgentOutput where
  noc : Bool
  issues : List Issue
deriving Repr, DecidableEq

/-- The coordinator's `agent_outputs` dict, in insertion order. -/
abbrev AgentOutputs := List (String × AgentOutput)

/-! ### Aggregation (`coordinator_agent.py`, `coordinate`, lines 53-69) -/

/-- `issue.get("severity") in ["high", "critical"]`. -/
def isHighOrCritical (i : Issue) : Bool :=
  i.severity == some "high" || i.severity == some "critical"

/-- One step of the `blocked_by` bookkeeping: an agent is appended when one
of its issues is high/critical and it is not yet listed. -/
def addBlocked (agent : String) (blocked : List String) (i : Issue) : List String :=
  if isHighOrCritical i && !(blocked.contains agent) then blocked ++ [agent] else blocked

/-- One iteration of the aggregation loop: the agent is appended to
`approved_by` when its `noc` is truthy, its issues are stamped and appended
to `all_issues`, and `blocked_by` is updated per issue. -/
def aggStep (acc : List TaggedIssue × List String × List String)
    (p : String × AgentOutput) : List TaggedIssue × List String × List String :=
  let approved' := if p.2.noc then acc.2.1 ++ [p.1] else acc.2.1
  let issues' := acc.1 ++ p.2.issues.map (fun i => TaggedIssue.mk p.1 i)
  let blocked' := p.2.issues.foldl (addBlocked p.1) acc.2.2
  (issues', approved', blocked')

/-- The aggregation loop of `coordinate`: walks the agent outputs in order,
collecting `(all_issues, approved_by, blocked_by)`. -/
def aggregate (outputs : AgentOutputs) : List TaggedIssue × List String × List String :=
  outputs.foldl aggStep ([], [], [])

/-! ### Decision rules (`coordinator_agent.py`, `_apply_decision_rules`) -/

/-- Severity test on a tagged issue dict (`i.get("severity") == s`). -/
def sevIs (s : String) (t : TaggedIssue) : Bool := t.issue.severity == some s

/-- `_apply_decision_rules`: ordered rules, first match wins. -/
def applyDecisionRules (allIssues : List TaggedIssue) (outputs : AgentOutputs) :
    String × Bool :=
  if (allIssues.filter (sevIs "critical")).isEmpty = false then ("HOLD", false)
  else if (allIssues.filter (sevIs "high")).isEmpty = false then ("HOLD", false)
  else if outputs.all (fun p => p.2.noc) then ("APPROVE", true)
  else ("PENDING_AUTO_RESOLUTION", false)

/-- The decision rules as §4.3 of the specification words them, for the
refinement theorem: existential severity tests and a universal cleared test. -/
def specDecision (allIssues : List TaggedIssue) (outputs : AgentOutputs) :
    String × Bool :=
  if ∃ t ∈ allIssues, t.issue.severity = some "critical" then ("HOLD", false)
  else if ∃ t ∈ allIssues, t.issue.severity = some "high" then ("HOLD", false)
  else if ∀ p ∈ outputs, p.2.noc = true then ("APPROVE", true)
  else ("PENDING_AUTO_RESOLUTION", false)

/-! ### Auto-resolutions (`coordinator_agent.py`, `_generate_auto_resolutions`) -/

/-- The `details` sub-dict of one suggested resolution. -/
structure ResolutionDetails where
  agent : String
  code : Option String
  severity : Option String
  data : String
deriving Repr, DecidableEq

/-- One suggested resolution `{action, details}`. -/
structure Resolution where
  action : String
  details : ResolutionDetails
deriving Repr, DecidableEq

/-- `issue.get("severity") in ["medium", "low"]`. -/
def isMediumOrLow (t : TaggedIssue) : Bool :=
  t.issue.severity == some "medium" || t.issue.severity == some "low"

/-- The resolution dict built for one qualifying issue. -/
def mkResolution (t : TaggedIssue) : Resolution :=
  { action := t.issue.suggested_action.getD ""
    details :=
      { agent := t.agent
        code := t.issue.code
        severity := t.issue.severity
        data := t.issue.data.getD emptyDict } }

/-- `_generate_auto_resolutions`: empty for `"APPROVE"`, otherwise one entry
per medium/low issue, in issue order. -/
def generateAutoResolutions (allIssues : List TaggedIssue) (finalDecision : String) :
    List Resolution :=
  if finalDecision = "APPROVE" then []
  else (allIssues.filter isMediumOrLow).map mkResolution

/-! ### Escalation manager (`coordinator/escalation_manager.py`) -/

/-- `DEPARTMENT_MAPPING`: issue-code prefixes to departments, in the dict's
insertion order. -/
def DEPARTMENT_MAPPING : List (String × String) :=
  [("LAB_", "Lab Portal"),
   ("PHARM_", "Pharmacy Portal"),
   ("BED_", "Billing Portal"),
   ("BILLING_", "Billing Portal"),
   ("TRANSPORT_", "Transport Services"),
   ("INS_", "Insurance Desk")]

/-- `SEVERITY_TO_PRIORITY`. -/
def SEVERITY_TO_PRIORITY : List (String × String) :=
  [("critical", "urgent"), ("high", "high"), ("medium", "normal"), ("low", "low")]

/-- `_map_issue_to_department`: the first prefix of `DEPARTMENT_MAPPING`
matching the code wins, otherwise `"General Operations"`. -/
def mapIssueToDepartment (issue_code : String) : String :=
  match DEPARTMENT_MAPPING.find? (fun pd => pyStartsWith issue_code pd.1) with
  | some pd => pd.2
  | none => "General Operations"

/-- `SEVERITY_TO_PRIORITY.get(severity, "normal")`. -/
def priorityOf (severity : String) : String :=
  match SEVERITY_TO_PRIORITY.find? (fun pd => pd.1 == severity) with
  | some pd => pd.2
  | none => "normal"

/-- `department.replace(" ", "").replace("Portal", "").upper()[:3]`. -/
def deptAbbrev (department : String) : String :=
  pyTake 3 (pyUpper (pyReplace (pyReplace department " " "") "Portal" ""))

/-- The `EscalationAlert` record exactly as `_create_alert` constructs it.
The pydantic class itself (imported from `schemas.agent_schema`) is not among
the staged sources; its fields are reconstructed from the construction site
and §3 of the specification. -/
structure EscalationAlert where
  alert_id : String
  patient_id : String
  department : String
  priority : String
  issue_code : String
  issue_title : String
  message : String
  suggested_action : String
  evidence : List String
  data : String
  escalated_at : String
  status : String
deriving Repr, DecidableEq

/-- `_create_alert`: increments the manager's counter, then builds the alert.
`now` stands for `get_iso_timestamp()`.  Returns the alert and the new
counter value. -/
def createAlert (patient_id now : String) (counter : Nat) (t : TaggedIssue) :
    EscalationAlert × Nat :=
  let counter' := counter + 1
  let issue_code := t.issue.code.getD "UNKNOWN"
  let department := mapIssueToDepartment issue_code
  let severity := t.issue.severity.getD "medium"
  let priority := priorityOf severity
  let dept_abbrev := deptAbbrev department
  let alert_id := "ALERT-" ++ patient_id ++ "-" ++ dept_abbrev ++ "-" ++ pyFormat03 counter'
  ({ alert_id := alert_id
     patient_id := patient_id
     department := department
     priority := priority
     issue_code := issue_code
     issue_title := t.issue.title.getD ""
     message := t.issue.message.getD ""
     suggested_action := t.issue.suggested_action.getD ""
     evidence := t.issue.evidence
     data := t.issue.data.getD emptyDict
     escalated_at := now
     status := "pending" }, counter')

/-- The alert-creation loop of `create_escalations`: one alert per issue, in
order, threading the manager's counter. -/
def createAlerts (patient_id now : String) : Nat → List TaggedIssue →
    List EscalationAlert × Nat
  | counter, [] => ([], counter)
  | counter, t :: ts =>
    let (a, c') := createAlert patient_id now counter t
    let (rest, c'') := createAlerts patient_id now c' ts
    (a :: rest, c'')

/-- The `department_alerts` dict: alerts grouped by department, departments
in first-seen order, alerts in creation order. -/
def groupByDept (alerts : List EscalationAlert) : List (String × List EscalationAlert) :=
  alerts.foldl
    (fun acc a =>
      if acc.any (fun p => p.1 == a.department) then
        acc.map (fun p => if p.1 == a.department then (p.1, p.2 ++ [a]) else p)
      else acc ++ [(a.department, [a])])
    []

/-- `department.lower().replace(" ", "_") + ".json"`. -/
def deptFileName (department : String) : String :=
  pyReplace (pyLower department) " " "_" ++ ".json"

/-- A filesystem side effect of `create_escalations` (directory creation or
a JSON file write).  File contents are carried elsewhere (the alerts and
groups above); no claim depends on the serialised bytes. -/
inductive FsEffect where
  | makedirs (path : String)
  | write (path : String)
deriving Repr, DecidableEq

/-- `create_escalations`: empty-issue runs return immediately; otherwise one
department file per first-seen department, a patient-notification file when
an urgent/high alert exists, and a summary file.  Returns
`(files_written, effects, counter)`. -/
def createEscalations (escalations_dir patient_id now : String) (counter : Nat)
    (issues : List TaggedIssue) (_final_decision : String) :
    List String × List FsEffect × Nat :=
  if issues.isEmpty then ([], [], counter)
  else
    let patient_dir := pyJoin escalations_dir ("patient_" ++ patient_id)
    let (alerts, counter') := createAlerts patient_id now counter issues
    let dept_alerts := groupByDept alerts
    let notifications := alerts.filter (fun a => a.priority == "urgent" || a.priority == "high")
    let dept_files := dept_alerts.map (fun p => pyJoin patient_dir (deptFileName p.1))
    let files2 :=
      if notifications.isEmpty then dept_files
      else dept_files ++ [pyJoin patient_dir "patient_notifications.json"]
    let files := files2 ++ [pyJoin patient_dir ("escalation_summary_" ++ patient_id ++ ".json")]
    (files, FsEffect.makedirs patient_dir :: files.map FsEffect.write, counter')

/-! ### State manager (`coordinator/state_manager.py`) -/

/-- The persisted discharge state, as `save_discharge_state` writes it.
`fmt`-rendered timestamps are strings; `expires_at` stays `none` unless the
status is the literal `"approved"`. -/
structure PersistedState where
  patient_id : String
  status : String
  final_decision : String
  timestamp : String
  expires_at : Option String
  approved_by : List String
  blocked_by : List String
  agents : AgentOutputs
  issues : List TaggedIssue
  created_at : String
  last_updated : String
  version : String
deriving Repr, DecidableEq

/-- `save_discharge_state`.  `fmt` is `datetime.isoformat` over the embedded
clock (`now`, seconds); the expiry is six hours after `now`, set only when
`status == "approved"`. -/
def saveDischargeState (fmt : Nat → String) (now : Nat)
    (patient_id status final_decision : String) (agents : AgentOutputs)
    (issues : List TaggedIssue) (approved_by blocked_by : List String) :
    PersistedState :=
  let timestamp := fmt now
  let expires_at := if status = "approved" then some (fmt (now + 6 * 3600)) else none
  { patient_id := patient_id
    status := status
    final_decision := final_decision
    timestamp := timestamp
    expires_at := expires_at
    approved_by := approved_by
    blocked_by := blocked_by
    agents := agents
    issues := issues
    created_at := timestamp
    last_updated := timestamp
    version := "1.0" }

/-- The state files on disk, keyed by patient id.  `load_discharge_state`
returns `none` for a missing or unreadable file. -/
def loadDischargeState (store : List (String × PersistedState)) (patient_id : String) :
    Option PersistedState :=
  (store.find? (fun p => p.1 == patient_id)).map (fun p => p.2)

/-- `is_state_expired`.  `parse` is `datetime.fromisoformat`, returning
`none` where Python raises; the `s = ""` branch is the Python truthiness
test `not state.get("expires_at")` on an empty string. -/
def isStateExpired (parse : String → Option Nat) (now : Nat)
    (store : List (String × PersistedState)) (patient_id : String) : Bool :=
  match loadDischargeState store patient_id with
  | none => false
  | some st =>
    match st.expires_at with
    | none => false
    | some s =>
      if s = "" then false
      else
        match parse s with
        | none => false
        | some t => decide (now > t)

/-- The status string `coordinate` hands to `save_discharge_state`:
`final_decision.lower().replace("_", " ")`. -/
def decisionStatus (final_decision : String) : String :=
  pyReplace (pyLower final_decision) "_" " "

/-! ### Reading the counter suffix back out of an alert id -/

/-- The numeric value of a decimal digit character. -/
def charDecVal (c : Char) : Nat := c.toNat - 48

/-- The number a little-endian list of decimal digit characters denotes. -/
def ofDigitsChars : List Char → Nat
  | [] => 0
  | c :: cs => charDecVal c + 10 * ofDigitsChars cs

/-- The counter suffix of an alert id: the value of the maximal run of
digits at the end of the string. -/
def seqOfAlertId (s : String) : Nat :=
  ofDigitsChars (s.data.reverse.takeWhile Char.isDigit)

/-- The documented alert-id format `ALERT-<patientId>-<deptAbbrev>-<seq>`. -/
def alertIdFormat (patient_id dept_abbrev : String) (seq : Nat) : String :=
  "ALERT-" ++ patient_id ++ "-" ++ dept_abbrev ++ "-" ++ pyFormat03 seq

/-- The department an issue dict routes to (`issue.get("code", "UNKNOWN")`). -/
def issueDept (t : TaggedIssue) : String :=
  mapIssueToDepartment (t.issue.code.getD "UNKNOWN")

/-! ### Sample inputs for the concrete witnesses -/

/-- A sample issue of the given severity. -/
def sampleIssue (sev : String) : Issue :=
  { code := some "LAB_RESULTS_PENDING"
    title := some "Lab results pending"
    severity := some sev
    message := some "msg"
    suggested_action := some "follow up"
    evidence := []
    data := none }

/-- A sample tagged issue of the given severity. -/
def sampleTagged (sev : String) : TaggedIssue := ⟨"Lab", sampleIssue sev⟩

/-- A sample cleared agent output carrying the given issues. -/
def sampleOutput (issues : List Issue) : AgentOutput := ⟨true, issues⟩

/-! ### General helper lemmas -/

theorem filter_isEmpty_eq_false_iff {α : Type} {p : α → Bool} {l : List α} :
    ((l.filter p).isEmpty = false) ↔ ∃ t ∈ l, p t = true := by
  simp [List.isEmpty_eq_false, List.filter_eq_nil_iff]

theorem perm_isEmpty_eq {α : Type} {l l' : List α} (h : List.Perm l l') :
    l.isEmpty = l'.isEmpty := by
  have hl := h.length_eq
  cases l <;> cases l' <;> simp_all

/-! ### The claims -/

/-- C10: on an empty mapping of check outputs there are no aggregated issues,
the all-cleared rule is vacuously satisfied, and the decision is
`APPROVE` with `approved = true`. -/
theorem c10_empty_outputs_approve :
    (aggregate []).1 = [] ∧ applyDecisionRules (aggregate []).1 [] = ("APPROVE", true) :=
  ⟨rfl, rfl⟩

/-- C8: routing an empty issue list is a no-op for every patient id,
decision, directory and counter state: no files, no filesystem effects, and
the manager's counter is unchanged. -/
theorem c8_route_empty_noop (dir pid now d : String) (counter : Nat) :
    createEscalations dir pid now counter [] d = ([], [], counter) := rfl

/-- C5: the department mapping is a pure function of the code's prefix,
tested in the fixed order LAB_, PHARM_, BED_, BILLING_, TRANSPORT_, INS_
with the first match winning and unmatched codes going to General
Operations; in particular "LAB_X" maps to Lab Portal and "UNKNOWN_CODE"
to General Operations. -/
theorem c5_department_mapping (code : String) :
    mapIssueToDepartment code =
      (if pyStartsWith code "LAB_" then "Lab Portal"
       else if pyStartsWith code "PHARM_" then "Pharmacy Portal"
       else if pyStartsWith code "BED_" then "Billing Portal"
       else if pyStartsWith code "BILLING_" then "Billing Portal"
       else if pyStartsWith code "TRANSPORT_" then "Transport Services"
       else if pyStartsWith code "INS_" then "Insurance Desk"
       else "General Operations")
    ∧ mapIssueToDepartment "LAB_X" = "Lab Portal"
    ∧ mapIssueToDepartment "UNKNOWN_CODE" = "General Operations" := by
  refine ⟨?_, by decide, by decide⟩
  cases h1 : pyStartsWith code "LAB_" <;>
    cases h2 : pyStartsWith code "PHARM_" <;>
      cases h3 : pyStartsWith code "BED_" <;>
        cases h4 : pyStartsWith code "BILLING_" <;>
          cases h5 : pyStartsWith code "TRANSPORT_" <;>
            cases h6 : pyStartsWith code "INS_" <;>
              simp [mapIssueToDepartment, DEPARTMENT_MAPPING, List.find?,
                h1, h2, h3, h4, h5, h6]

/-- C1: the decision rules are applied in order with first match winning —
any critical issue yields (HOLD, false); otherwise any high issue yields
(HOLD, false); otherwise all checks cleared yields (APPROVE, true);
otherwise (PENDING_AUTO_RESOLUTION, false) — and a single critical issue
forces (HOLD, false) regardless of every cleared flag. -/
theorem c1_ordered_decision_rules (issues : List TaggedIssue) (outputs : AgentOutputs) :
    applyDecisionRules issues outputs = specDecision issues outputs
    ∧ ((∃ t ∈ issues, t.issue.severity = some "critical") →
        applyDecisionRules issues outputs = ("HOLD", false)) := by
  have hc : ((issues.filter (sevIs "critical")).isEmpty = false) ↔
      ∃ t ∈ issues, t.issue.severity = some "critical" := by
    rw [filter_isEmpty_eq_false_iff]; simp [sevIs]
  have hh : ((issues.filter (sevIs "high")).isEmpty = false) ↔
      ∃ t ∈ issues, t.issue.severity = some "high" := by
    rw [filter_isEmpty_eq_false_iff]; simp [sevIs]
  constructor
  · simp only [applyDecisionRules, specDecision, hc, hh, List.all_eq_true]
  · intro h
    rw [applyDecisionRules, if_pos (hc.mpr h)]

/-- C1 witness: one critical issue from a cleared check is decided
(HOLD, false). -/
theorem c1_ordered_decision_rules_witness :
    applyDecisionRules [sampleTagged "critical"]
      [("Lab", sampleOutput [sampleIssue "critical"])] = ("HOLD", false) :=
  (c1_ordered_decision_rules [sampleTagged "critical"]
    [("Lab", sampleOutput [sampleIssue "critical"])]).2
    ⟨sampleTagged "critical", by simp, rfl⟩

/-- C7: the decision is order-independent over the issue list — permuting
the aggregated issues never changes the (outcome, approved) pair. -/
theorem c7_order_independent (issues issues' : List TaggedIssue)
    (outputs : AgentOutputs) (h : List.Perm issues issues') :
    applyDecisionRules issues outputs = applyDecisionRules issues' outputs := by
  unfold applyDecisionRules
  rw [perm_isEmpty_eq (List.Perm.filter (sevIs "critical") h),
    perm_isEmpty_eq (List.Perm.filter (sevIs "high") h)]

/-- C7 witness: swapping a high and a low issue leaves the decision
unchanged. -/
theorem c7_order_independent_witness :
    applyDecisionRules [sampleTagged "high", sampleTagged "low"] []
      = applyDecisionRules [sampleTagged "low", sampleTagged "high"] [] :=
  c7_order_independent [sampleTagged "high", sampleTagged "low"]
    [sampleTagged "low", sampleTagged "high"] []
    (List.Perm.swap (sampleTagged "low") (sampleTagged "high") [])

theorem contains_iff_mem (b : List String) (a : String) :
    b.contains a = true ↔ a ∈ b := by
  simp [List.contains_iff_exists_mem_beq, beq_iff_eq]

theorem foldl_aggStep_approved (outputs : AgentOutputs) :
    ∀ acc, (outputs.foldl aggStep acc).2.1
      = acc.2.1 ++ (outputs.filter (fun p => p.2.noc)).map Prod.fst := by
  induction outputs with
  | nil => intro acc; simp
  | cons p ps ih =>
    intro acc
    rw [List.foldl_cons, ih, List.filter_cons]
    by_cases hn : p.2.noc = true <;> simp [aggStep, hn]

theorem mem_foldl_addBlocked (ag name : String) :
    ∀ (issues : List Issue) (b : List String),
      (name ∈ issues.foldl (addBlocked ag) b ↔
        name ∈ b ∨ (name = ag ∧ ∃ i ∈ issues, isHighOrCritical i = true)) := by
  intro issues
  induction issues with
  | nil => intro b; simp
  | cons i is ih =>
    intro b
    rw [List.foldl_cons, ih]
    by_cases h1 : isHighOrCritical i = true
    · by_cases h2 : (b.contains ag) = true
      · have hb : ag ∈ b := (contains_iff_mem b ag).mp h2
        simp only [addBlocked, h1, h2]
        simp only [Bool.not_true, Bool.and_false, if_false]
        constructor
        · rintro (hm | ⟨rfl, i', hi', hc⟩)
          · exact Or.inl hm
          · exact Or.inr ⟨rfl, i', List.mem_cons_of_mem i hi', hc⟩
        · rintro (hm | ⟨rfl, i', hi', hc⟩)
          · exact Or.inl hm
          · exact Or.inl hb
      · simp only [addBlocked, h1, Bool.eq_false_iff] at h2 ⊢
        rw [Bool.not_eq_true] at h2
        simp only [h2, Bool.not_false, Bool.and_true, if_true, List.mem_append,
          List.mem_singleton]
        constructor
        · rintro ((hm | rfl) | ⟨rfl, i', hi', hc⟩)
          · exact Or.inl hm
          · exact Or.inr ⟨rfl, i, List.mem_cons_self i is, h1⟩
          · exact Or.inr ⟨rfl, i', List.mem_cons_of_mem i hi', hc⟩
        · rintro (hm | ⟨rfl, i', hi', hc⟩)
          · exact Or.inl (Or.inl hm)
          · exact Or.inl (Or.inr rfl)
    · rw [Bool.not_eq_true] at h1
      simp only [addBlocked, h1, Bool.false_and, if_false]
      constructor
      · rintro (hm | ⟨rfl, i', hi', hc⟩)
        · exact Or.inl hm
        · exact Or.inr ⟨rfl, i', List.mem_cons_of_mem i hi', hc⟩
      · rintro (hm | ⟨rfl, i', hi', hc⟩)
        · exact Or.inl hm
        · rcases List.mem_cons.mp hi' with rfl | hi''
          · rw [h1] at hc; cases hc
          · exact Or.inr ⟨rfl, i', hi'', hc⟩

theorem aggregate_blocked_mem (outputs : AgentOutputs) (name : String) :
    name ∈ (aggregate outputs).2.2 ↔
      ∃ p ∈ outputs, p.1 = name ∧ ∃ i ∈ p.2.issues, isHighOrCritical i = true := by
  have key : ∀ (outs : AgentOutputs) (acc : List TaggedIssue × List String × List String),
      name ∈ (outs.foldl aggStep acc).2.2 ↔
        name ∈ acc.2.2 ∨ ∃ p ∈ outs, p.1 = name ∧ ∃ i ∈ p.2.issues,
          isHighOrCritical i = true := by
    intro outs
    induction outs with
    | nil => intro acc; simp
    | cons p ps ih =>
      intro acc
      rw [List.foldl_cons, ih]
      have hstep : (aggStep acc p).2.2 = p.2.issues.foldl (addBlocked p.1) acc.2.2 := rfl
      rw [hstep, mem_foldl_addBlocked]
      constructor
      · rintro ((hm | ⟨rfl, i, hi, hc⟩) | ⟨q, hq, rfl, i, hi, hc⟩)
        · exact Or.inl hm
        · exact Or.inr ⟨p, List.mem_cons_self p ps, rfl, i, hi, hc⟩
        · exact Or.inr ⟨q, List.mem_cons_of_mem p hq, rfl, i, hi, hc⟩
      · rintro (hm | ⟨q, hq, rfl, i, hi, hc⟩)
        · exact Or.inl (Or.inl hm)
        · rcases List.mem_cons.mp hq with rfl | hq'
          · exact Or.inl (Or.inr ⟨rfl, i, hi, hc⟩)
          · exact Or.inr ⟨q, hq', rfl, i, hi, hc⟩
  simpa [aggregate] using key outputs ([], [], [])

/-- C3: `approved_by` is exactly the agents whose `noc` is true, in output
order; `blocked_by` holds exactly the agents with at least one high or
critical issue; the two are independent, so a cleared agent with a
high/critical issue appears in both. -/
theorem c3_cleared_and_blocked_sets (outputs : AgentOutputs) :
    (aggregate outputs).2.1 = (outputs.filter (fun p => p.2.noc)).map Prod.fst
    ∧ (∀ name, name ∈ (aggregate outputs).2.2 ↔
        ∃ p ∈ outputs, p.1 = name ∧ ∃ i ∈ p.2.issues, isHighOrCritical i = true)
    ∧ (∀ name out, (name, out) ∈ outputs → out.noc = true →
        (∃ i ∈ out.issues, isHighOrCritical i = true) →
        name ∈ (aggregate outputs).2.1 ∧ name ∈ (aggregate outputs).2.2) := by
  have happ : (aggregate outputs).2.1
      = (outputs.filter (fun p => p.2.noc)).map Prod.fst := by
    simpa [aggregate] using foldl_aggStep_approved outputs ([], [], [])
  refine ⟨happ, fun name => aggregate_blocked_mem outputs name, ?_⟩
  intro name out hmem hnoc hhc
  constructor
  · rw [happ]
    exact List.mem_map.mpr ⟨(name, out), List.mem_filter.mpr ⟨hmem, hnoc⟩, rfl⟩
  · exact (aggregate_blocked_mem outputs name).mpr ⟨(name, out), hmem, rfl, hhc⟩

/-- C3 witness: a cleared agent that raised a high issue lands in both
`approved_by` and `blocked_by`. -/
theorem c3_cleared_and_blocked_sets_witness :
    "Lab" ∈ (aggregate [("Lab", sampleOutput [sampleIssue "high"])]).2.1
    ∧ "Lab" ∈ (aggregate [("Lab", sampleOutput [sampleIssue "high"])]).2.2 :=
  (c3_cleared_and_blocked_sets [("Lab", sampleOutput [sampleIssue "high"])]).2.2
    "Lab" (sampleOutput [sampleIssue "high"]) (List.mem_cons_self _ _) rfl
    ⟨sampleIssue "high", List.mem_cons_self _ _, rfl⟩

theorem countP_medlow (l : List TaggedIssue) :
    l.countP isMediumOrLow = l.countP (sevIs "medium") + l.countP (sevIs "low") := by
  induction l with
  | nil => rfl
  | cons t ts ih =>
    have hsplit : isMediumOrLow t = (sevIs "medium" t || sevIs "low" t) := rfl
    rw [List.countP_cons, List.countP_cons, List.countP_cons, ih, hsplit]
    cases h1 : sevIs "medium" t <;> cases h2 : sevIs "low" t
    · simp [h1, h2]
    · simp [h1, h2]; omega
    · simp [h1, h2]; omega
    · exfalso
      simp only [sevIs, beq_iff_eq] at h1 h2
      rw [h1] at h2
      exact absurd h2 (by decide)

/-- C4: the suggested-resolution list is empty for APPROVE; for HOLD and
PENDING_AUTO_RESOLUTION it holds exactly one `{action, details}` entry per
medium/low issue, so its length is the count of medium plus low issues. -/
theorem c4_resolution_suggestions (issues : List TaggedIssue) (d : String) :
    generateAutoResolutions issues "APPROVE" = []
    ∧ ((d = "HOLD" ∨ d = "PENDING_AUTO_RESOLUTION") →
        generateAutoResolutions issues d = (issues.filter isMediumOrLow).map mkResolution
        ∧ (generateAutoResolutions issues d).length
            = issues.countP (sevIs "medium") + issues.countP (sevIs "low")) := by
  constructor
  · simp [generateAutoResolutions]
  · rintro (rfl | rfl) <;>
      refine ⟨by rw [generateAutoResolutions, if_neg (by decide)], ?_⟩ <;>
        rw [generateAutoResolutions, if_neg (by decide), List.length_map,
          ← List.countP_eq_length_filter, countP_medlow]

/-- C4 witness: one low issue under HOLD yields exactly the one resolution
entry built from it. -/
theorem c4_resolution_suggestions_witness :
    generateAutoResolutions [sampleTagged "low"] "HOLD"
      = (([sampleTagged "low"]).filter isMediumOrLow).map mkResolution :=
  ((c4_resolution_suggestions [sampleTagged "low"] "HOLD").2 (Or.inl rfl)).1

/-- C2, evaluated at the failing input: an APPROVE outcome reaches
`save_discharge_state` as the status string `"approve"`, not the
`"approved"` the expiry rule tests for, so the persisted `expires_at` is
`none` and `is_state_expired` stays false at every later observation time —
the approval never lapses, against the documented six-hour window. -/
theorem c2_expiry_never_set_on_approve :
    decisionStatus "APPROVE" = "approve"
    ∧ ("approve" == "approved") = false
    ∧ ∀ (fmt : Nat → String) (now : Nat) (pid fd : String) (agents : AgentOutputs)
        (issues : List TaggedIssue) (ab bb : List String),
        (saveDischargeState fmt now pid (decisionStatus "APPROVE") fd agents
          issues ab bb).expires_at = none
        ∧ ∀ (parse : String → Option Nat) (t : Nat),
            isStateExpired parse t
              [(pid, saveDischargeState fmt now pid (decisionStatus "APPROVE") fd agents
                  issues ab bb)] pid = false := by
  have hstat : decisionStatus "APPROVE" = "approve" := by decide
  refine ⟨hstat, by decide, ?_⟩
  intro fmt now pid fd agents issues ab bb
  have hexp : (saveDischargeState fmt now pid (decisionStatus "APPROVE") fd agents
      issues ab bb).expires_at = none := by
    rw [hstat]
    simp only [saveDischargeState]
    rw [if_neg (by decide)]
  refine ⟨hexp, ?_⟩
  intro parse t
  simp [isStateExpired, loadDischargeState, List.find?, hexp]

/-- C9: `is_state_expired` returns false for a missing state, a state
without `expires_at`, and an unparsable `expires_at`; it returns true
exactly when the observation time is strictly past the parsed expiry. -/
theorem c9_is_expired_guards (parse : String → Option Nat) (hparse : parse "" = none)
    (now : Nat) (store : List (String × PersistedState)) (pid : String) :
    (loadDischargeState store pid = none → isStateExpired parse now store pid = false)
    ∧ (∀ st, loadDischargeState store pid = some st → st.expires_at = none →
        isStateExpired parse now store pid = false)
    ∧ (∀ st s, loadDischargeState store pid = some st → st.expires_at = some s →
        parse s = none → isStateExpired parse now store pid = false)
    ∧ (isStateExpired parse now store pid = true ↔
        ∃ st s t, loadDischargeState store pid = some st ∧ st.expires_at = some s
          ∧ parse s = some t ∧ t < now) := by
  unfold isStateExpired
  cases hload : loadDischargeState store pid with
  | none => simp [hload]
  | some st =>
    cases hexp : st.expires_at with
    | none => simp [hload, hexp]
    | some s =>
      by_cases hs : s = ""
      · subst hs
        simp [hload, hexp, hparse]
      · cases hp : parse s with
        | none => simp [hload, hexp, hs, hp]
        | some t =>
          simp [hload, hexp, hs, hp]
          intro st' s' h1 h2 h3
          subst h1
          rw [hexp] at h2
          injection h2 with h2'
          subst h2'
          rw [hp] at h3
          cases h3

/-- C9 witness: with no persisted state nothing is expired. -/
theorem c9_is_expired_guards_witness :
    isStateExpired (fun _ => none) 0 [] "P00231" = false :=
  (c9_is_expired_guards (fun _ => none) rfl 0 [] "P00231").1 rfl

theorem decDigitChar_isDigit {d : Nat} (h : d < 10) : (decDigitChar d).isDigit = true := by
  interval_cases d <;> decide

theorem charDecVal_decDigitChar {d : Nat} (h : d < 10) : charDecVal (decDigitChar d) = d := by
  interval_cases d <;> decide

theorem natToDigitsAux_zero (fuel : Nat) : natToDigitsAux fuel 0 = [] := by
  cases fuel <;> rfl

theorem mem_natToDigitsAux_isDigit :
    ∀ (fuel n : Nat), ∀ c ∈ natToDigitsAux fuel n, c.isDigit = true := by
  intro fuel
  induction fuel with
  | zero => intro n c hc; simp [natToDigitsAux] at hc
  | succ fuel ih =>
    intro n c hc
    cases n with
    | zero => simp [natToDigitsAux] at hc
    | succ m =>
      rcases List.mem_cons.mp hc with rfl | hc'
      · exact decDigitChar_isDigit (Nat.mod_lt _ (by omega))
      · exact ih _ c hc'

theorem mem_natRepr_isDigit {n : Nat} : ∀ c ∈ natRepr n, c.isDigit = true := by
  intro c hc
  unfold natRepr at hc
  by_cases h : n = 0
  · rw [if_pos h] at hc
    rcases List.mem_singleton.mp hc with rfl
    decide
  · rw [if_neg h] at hc
    exact mem_natToDigitsAux_isDigit n n c (List.mem_reverse.mp hc)

theorem ofDigitsChars_replicate_zeros (z : Nat) :
    ofDigitsChars (List.replicate z '0') = 0 := by
  induction z with
  | zero => rfl
  | succ z ih =>
    rw [List.replicate_succ]
    show charDecVal '0' + 10 * ofDigitsChars (List.replicate z '0') = 0
    rw [ih]
    decide

theorem ofDigitsChars_append_zeros (xs : List Char) (z : Nat) :
    ofDigitsChars (xs ++ List.replicate z '0') = ofDigitsChars xs := by
  induction xs with
  | nil => rw [List.nil_append, ofDigitsChars_replicate_zeros]; rfl
  | cons c cs ih =>
    rw [List.cons_append]
    show charDecVal c + 10 * ofDigitsChars (cs ++ List.replicate z '0')
      = charDecVal c + 10 * ofDigitsChars cs
    rw [ih]

theorem ofDigitsChars_natToDigitsAux :
    ∀ fuel n, 0 < n → n ≤ fuel → ofDigitsChars (natToDigitsAux fuel n) = n := by
  intro fuel
  induction fuel with
  | zero => intro n h1 h2; omega
  | succ fuel ih =>
    intro n h1 h2
    cases n with
    | zero => omega
    | succ m =>
      show charDecVal (decDigitChar ((m + 1) % 10))
          + 10 * ofDigitsChars (natToDigitsAux fuel ((m + 1) / 10)) = m + 1
      rw [charDecVal_decDigitChar (Nat.mod_lt _ (by omega))]
      by_cases hq : (m + 1) / 10 = 0
      · rw [hq, natToDigitsAux_zero]
        show (m + 1) % 10 + 10 * 0 = m + 1
        omega
      · rw [ih ((m + 1) / 10) (Nat.pos_of_ne_zero hq) (by omega)]
        omega

theorem ofDigitsChars_natRepr_reverse (n : Nat) :
    ofDigitsChars ((natRepr n).reverse) = n := by
  by_cases h : n = 0
  · subst h; decide
  · rw [natRepr, if_neg h, List.reverse_reverse]
    exact ofDigitsChars_natToDigitsAux n n (Nat.pos_of_ne_zero h) le_rfl

theorem takeWhile_all_append {α : Type} (p : α → Bool) :
    ∀ (xs : List α) (y : α) (ys : List α), (∀ a ∈ xs, p a = true) → p y = false →
      (xs ++ y :: ys).takeWhile p = xs := by
  intro xs
  induction xs with
  | nil =>
    intro y ys _ hy
    rw [List.nil_append, List.takeWhile_cons_of_neg (by simp [hy])]
  | cons a as ih =>
    intro y ys hx hy
    rw [List.cons_append,
      List.takeWhile_cons_of_pos (hx a (List.mem_cons_self a as)),
      ih y ys (fun b hb => hx b (List.mem_cons_of_mem a hb)) hy]

theorem takeWhile_digits_append (Q F : List Char) (hF : ∀ a ∈ F, a.isDigit = true) :
    ((Q ++ '-' :: F).reverse).takeWhile Char.isDigit = F.reverse := by
  rw [List.reverse_append, List.reverse_cons, List.append_assoc, List.singleton_append]
  exact takeWhile_all_append Char.isDigit F.reverse '-' Q.reverse
    (fun a ha => hF a (List.mem_reverse.mp ha)) (by decide)

theorem pyFormat03_data (k : Nat) :
    (pyFormat03 k).data = List.replicate (3 - (natRepr k).length) '0' ++ natRepr k := rfl

theorem pyFormat03_data_reverse (k : Nat) :
    (pyFormat03 k).data.reverse
      = (natRepr k).reverse ++ List.replicate (3 - (natRepr k).length) '0' := by
  rw [pyFormat03_data, List.reverse_append, List.reverse_replicate]

theorem pyFormat03_digits (k : Nat) :
    ∀ a ∈ (pyFormat03 k).data, a.isDigit = true := by
  intro a ha
  rw [pyFormat03_data] at ha
  rcases List.mem_append.mp ha with h | h
  · rw [List.eq_of_mem_replicate h]; decide
  · exact mem_natRepr_isDigit a h

theorem ofDigitsChars_pyFormat03_reverse (k : Nat) :
    ofDigitsChars ((pyFormat03 k).data.reverse) = k := by
  rw [pyFormat03_data_reverse, ofDigitsChars_append_zeros, ofDigitsChars_natRepr_reverse]

theorem alertIdFormat_data (pid ab : String) (k : Nat) :
    (alertIdFormat pid ab k).data
      = ("ALERT-".data ++ pid.data ++ '-' :: ab.data) ++ '-' :: (pyFormat03 k).data := by
  show ("ALERT-" ++ pid ++ "-" ++ ab ++ "-" ++ pyFormat03 k).data = _
  simp [String.data_append, List.append_assoc]

theorem seqOfAlertId_format (pid ab : String) (k : Nat) :
    seqOfAlertId (alertIdFormat pid ab k) = k := by
  unfold seqOfAlertId
  rw [alertIdFormat_data,
    takeWhile_digits_append _ _ (pyFormat03_digits k),
    ofDigitsChars_pyFormat03_reverse]

theorem createAlerts_ids (pid now : String) :
    ∀ (issues : List TaggedIssue) (c : Nat),
      ((createAlerts pid now c issues).1.map (fun a => a.alert_id)
        = List.zipWith (fun t k => alertIdFormat pid (deptAbbrev (issueDept t)) k)
            issues (List.range' (c + 1) issues.length))
      ∧ (createAlerts pid now c issues).2 = c + issues.length := by
  intro issues
  induction issues with
  | nil => intro c; exact ⟨rfl, rfl⟩
  | cons t ts ih =>
    intro c
    have hcons : createAlerts pid now c (t :: ts)
        = ((createAlert pid now c t).1 :: (createAlerts pid now (c + 1) ts).1,
           (createAlerts pid now (c + 1) ts).2) := rfl
    have hid : ((createAlert pid now c t).1).alert_id
        = alertIdFormat pid (deptAbbrev (issueDept t)) (c + 1) := rfl
    rw [hcons]
    constructor
    · rw [List.map_cons, hid, List.length_cons, List.range'_succ,
        List.zipWith_cons_cons, (ih (c + 1)).1]
    · rw [(ih (c + 1)).2, List.length_cons]
      omega

theorem map_seqOfAlertId_zipWith (pid : String) :
    ∀ (ts : List TaggedIssue) (bs : List Nat), ts.length = bs.length →
      (List.zipWith (fun t k => alertIdFormat pid (deptAbbrev (issueDept t)) k)
          ts bs).map seqOfAlertId = bs := by
  intro ts
  induction ts with
  | nil =>
    intro bs hlen
    rw [List.length_nil] at hlen
    rw [(List.length_eq_zero.mp hlen.symm)]
    rfl
  | cons t ts' ih =>
    intro bs hlen
    cases bs with
    | nil => simp at hlen
    | cons b bs' =>
      rw [List.zipWith_cons_cons, List.map_cons, seqOfAlertId_format,
        ih bs' (by simpa using hlen)]

/-- C6: in a fresh run the alert ids follow
`ALERT-<patientId>-<deptAbbrev>-<seq>` with one shared counter across all
departments — the seq suffixes are exactly 1, 2, …, n in alert order — so
the ids are unique within the run, and the manager's counter ends at the
number of issues. -/
theorem c6_alert_id_sequencing (pid now : String) (issues : List TaggedIssue) :
    ((createAlerts pid now 0 issues).1.map (fun a => a.alert_id)
      = List.zipWith (fun t k => alertIdFormat pid (deptAbbrev (issueDept t)) k)
          issues (List.range' 1 issues.length))
    ∧ (((createAlerts pid now 0 issues).1.map (fun a => a.alert_id)).map seqOfAlertId
        = List.range' 1 issues.length)
    ∧ ((createAlerts pid now 0 issues).1.map (fun a => a.alert_id)).Nodup
    ∧ (createAlerts pid now 0 issues).2 = issues.length := by
  have hids := (createAlerts_ids pid now issues 0).1
  have hseq : (((createAlerts pid now 0 issues).1.map (fun a => a.alert_id)).map seqOfAlertId
      = List.range' 1 issues.length) := by
    rw [hids]
    exact map_seqOfAlertId_zipWith pid issues (List.range' 1 issues.length)
      (by rw [List.length_range'])
  refine ⟨hids, hseq, ?_, by rw [(createAlerts_ids pid now issues 0).2, Nat.zero_add]⟩
  exact List.Nodup.of_map seqOfAlertId (hseq ▸ List.nodup_range' 1 issues.length)

end DischargeFlow
